import Mathlib

/-!
Shallow embedding of the report-accumulation core of sklearn-evaluation
(file src/sklearn_evaluation/models.py): ReportSection, ModelEvaluator and
ModelComparer, together with the parts of ModelHeuristics that models.py
uses.  Python dicts are mutable and shared by reference, so the embedding
threads an explicit store of section dicts (PyState); a ReportSection holds
the address of its dict, exactly as the Python object holds a reference.
External collaborators (the metrics library, curve computation, plotting)
are modelled as parameters or as opaque-free artifact constructors.
-/

/-- A plot artifact embedded into a guideline.  The plotting backend is an
external collaborator; each constructor records which plotting call produced
the artifact and the data handed to it. -/
inductive PlotArtifact where
  | targetAnalysis (y_true : List Int)
  | rocPerClass (fpr tpr : List ℚ) (label : List String)
  | precisionRecallPlot (y_true : List Int) (y_prob : List (List ℚ))
  | calibrationPlot (y_true : List Int) (y_prob : List (List ℚ))
  | confusionMatrixPlot (y_true y_pred : List Int)
  | rocPlot (y_true : List Int) (y_score : List (List ℚ))
  | combinedCMPlot (cm : List (List Nat))
deriving DecidableEq

/-- One guideline entry of a report section: explanatory text or an embedded
plot artifact. -/
inductive Guideline where
  | text (s : String)
  | plot (p : PlotArtifact)
deriving DecidableEq

/-- The contents of a ReportSection.report_section dict:
guidelines, title, include_in_report, is_ok. -/
structure SectionDict where
  guidelines : List Guideline
  title : String
  include_in_report : Bool
  is_ok : Bool
deriving DecidableEq

/-- Python exceptions that the embedded code can raise. -/
inductive PyErr where
  | keyError (key : String)
  | typeError (msg : String)
  | exc (msg : String)
deriving DecidableEq

/-- Rendering of an exception, as Python would interpolate it into an
f-string. -/
def PyErr.str : PyErr → String
  | .keyError k => "KeyError: " ++ k
  | .typeError m => "TypeError: " ++ m
  | .exc m => m

/-- The mutable state of one evaluator/comparer run: the store of all
allocated section dicts (a dict reference is an index into cells) and
ModelHeuristics.evaluation_state, which maps a section key to the reference
of that section dict. -/
structure PyState where
  cells : List SectionDict
  evaluationState : List (String × Nat)
deriving DecidableEq

def PyState.empty : PyState := ⟨[], []⟩

/-- Read the section dict stored at reference a. -/
def PyState.deref (st : PyState) (a : Nat) : SectionDict :=
  st.cells.getD a ⟨[], "", true, false⟩

/-- Replace the section dict stored at reference a by f applied to it
(in-place mutation of a Python dict). -/
def PyState.modifyCell (st : PyState) (a : Nat) (f : SectionDict → SectionDict) :
    PyState :=
  { st with cells := st.cells.set a (f (st.deref a)) }

/-- Python dict assignment d[k] = v on an insertion-ordered dict: replace
the value at k if the key is present, else append the binding. -/
def assocSet (l : List (String × Nat)) (k : String) (v : Nat) :
    List (String × Nat) :=
  match l with
  | [] => [(k, v)]
  | (k0, v0) :: rest =>
      if k0 = k then (k0, v) :: rest else (k0, v0) :: assocSet rest k v

/-- A ReportSection object: its key and the reference to its
report_section dict. -/
structure ReportSection where
  key : String
  addr : Nat
deriving DecidableEq

/-- key.replace("_", " "): for the one-character pattern "_" this is the
character map sending every underscore to a space (written at character
level so that it computes structurally). -/
def replaceUnderscore (s : String) : String :=
  String.mk (s.toList.map (fun c => if c = '_' then ' ' else c))

/-- ReportSection.__init__: allocates the report_section dict with empty
guidelines, the title derived from the key by replacing underscores with
spaces, the given include_in_report flag (default True) and is_ok = False. -/
def ReportSection.init (st : PyState) (key : String)
    (include_in_report : Bool := true) : ReportSection × PyState :=
  let d : SectionDict :=
    { guidelines := []
      title := replaceUnderscore key
      include_in_report := include_in_report
      is_ok := false }
  ({ key := key, addr := st.cells.length }, { st with cells := st.cells ++ [d] })

/-- ReportSection.append_guideline: appends to the guidelines list of the
section dict. -/
def ReportSection.append_guideline (s : ReportSection) (g : Guideline)
    (st : PyState) : PyState :=
  st.modifyCell s.addr (fun d => { d with guidelines := d.guidelines ++ [g] })

/-- ReportSection.get_dict: returns self.report_section, i.e. the reference
to the section dict (not a copy). -/
def ReportSection.get_dict (s : ReportSection) : Nat := s.addr

/-- ReportSection.set_is_ok. -/
def ReportSection.set_is_ok (s : ReportSection) (b : Bool) (st : PyState) :
    PyState :=
  st.modifyCell s.addr (fun d => { d with is_ok := b })

/-- ReportSection.set_include_in_report. -/
def ReportSection.set_include_in_report (s : ReportSection) (b : Bool)
    (st : PyState) : PyState :=
  st.modifyCell s.addr (fun d => { d with include_in_report := b })

/-- Modelled from the spec: ModelHeuristics._add_section_to_report is not
under src/; the Report is "built incrementally" and evaluate_accuracy later
reads evaluation_state["balance"], so the method stores the section dict
reference under the section key in evaluation_state. -/
def addSectionToReport (s : ReportSection) (st : PyState) : PyState :=
  { st with evaluationState := assocSet st.evaluationState s.key s.get_dict }

/-- The section dict currently stored in evaluation_state under key. -/
def PyState.sectionDict (st : PyState) (key : String) : Option SectionDict :=
  (st.evaluationState.lookup key).map st.deref

/-- The (is_ok, include_in_report) flags of the section stored under key. -/
def PyState.sectionFlags (st : PyState) (key : String) : Option (Bool × Bool) :=
  (st.sectionDict key).map fun d => (d.is_ok, d.include_in_report)

-- External collaborators of the evaluator

/-- Modelled from the spec: sklearn.metrics.accuracy_score is an external
metrics function; it "measures how many labels the model got right out of
the total number of predictions": the fraction of positions where the
prediction equals the true label. -/
def accuracy_score (y_true y_pred : List Int) : ℚ :=
  if y_true.length = 0 then 0
  else ((y_true.zip y_pred).countP (fun p => p.1 == p.2) : ℚ) / (y_true.length : ℚ)

/-- Modelled from the spec: Range, a "closed numeric interval with
membership test", membership low ≤ x ≤ high. -/
structure Range where
  low : ℚ
  high : ℚ
deriving DecidableEq

def Range.in_range (r : Range) (x : ℚ) : Bool :=
  decide (r.low ≤ x) && decide (x ≤ r.high)

-- ModelEvaluator

/-- The remediation link appended by the balance and auc checks. -/
def guideLinkText : String :=
  "To tackle this, check out this <a href=\x27https://ploomber.io/blog/\x27 target=\x27_blank\x27>guide</a>"

/-- ModelEvaluator.evaluate_balance.  check_array_balance is repository code
not under src/ (spec: "classifies the label distribution as
balanced/imbalanced using an external balance heuristic"), so it is a
parameter; plot.target_analysis is the external plotting backend. -/
def ModelEvaluator.evaluate_balance (check_array_balance : List Int → Bool)
    (y_true : List Int) (st : PyState) : PyState :=
  let (balance_section, st) := ReportSection.init st "balance"
  let is_balanced := check_array_balance y_true
  if is_balanced then
    let st := balance_section.set_is_ok true st
    let st := balance_section.append_guideline (.text "your model is balanced") st
    addSectionToReport balance_section st
  else
    let st := balance_section.set_is_ok false st
    let st := balance_section.append_guideline
      (.text "Your test set is highly imbalanced") st
    let st := balance_section.append_guideline
      (.plot (.targetAnalysis y_true)) st
    let st := balance_section.append_guideline (.text guideLinkText) st
    addSectionToReport balance_section st

/-- The message of the TypeError raised by the statement
accuracy_section.append_guideline["is_ok"] = True (item assignment on a
bound method). -/
def appendGuidelineItemAssignment : String :=
  "method object does not support item assignment"

/-- ModelEvaluator.evaluate_accuracy.  Reads
self.evaluation_state["balance"] (KeyError when the balance check has not
run); when accuracy ≥ 0.9 and the balance section is ok, the source line
accuracy_section.append_guideline["is_ok"] = True performs item assignment
on a bound method and raises TypeError. -/
def ModelEvaluator.evaluate_accuracy (y_true y_pred_test : List Int)
    (st : PyState) : Except PyErr PyState :=
  let accuracy_threshold : ℚ := 9 / 10
  let (accuracy_section, st) := ReportSection.init st "accuracy"
  let accuracy := accuracy_score y_true y_pred_test
  match st.evaluationState.lookup "balance" with
  | none => .error (.keyError "balance")
  | some balanceRef =>
    let st := accuracy_section.append_guideline
      (.text s!"Accuracy is {accuracy}") st
    if accuracy ≥ accuracy_threshold then
      if (st.deref balanceRef).is_ok then
        .error (.typeError appendGuidelineItemAssignment)
      else
        let st := accuracy_section.set_is_ok false st
        let st := accuracy_section.append_guideline
          (.text ("Please note your model is unbalanced, "
            ++ "so high accuracy could be misleading")) st
        .ok (addSectionToReport accuracy_section st)
    else
      .ok (addSectionToReport accuracy_section st)

-- The label regex of evaluate_auc

/-- Index (0-based) of the last close-paren in a character list, if any. -/
def lastCloseParen (cs : List Char) : Option Nat :=
  ((cs.enum.filter (fun p => p.2 == ')')).map Prod.fst).getLast?

/-- re.match of the pattern caret backslash-( class space (.)* backslash-)
against a label: succeeds iff the label starts with "(class " and a ")"
follows on the same line; r[0] is the greedy match, i.e. the prefix through
the last ")" on the first line (written at character level so that it
computes structurally). -/
def classRegexMatch (label : String) : Option String :=
  if ['(', 'c', 'l', 'a', 's', 's', ' '].isPrefixOf label.toList then
    let rest := (label.toList.drop 7).takeWhile (fun c => c != '\n')
    match lastCloseParen rest with
    | none => none
    | some j => some (String.mk (label.toList.take (7 + j + 1)))
  else none

/-- m.replace("(", "").replace(")", ""): for one-character patterns this
removes every paren character. -/
def stripParens (s : String) : String :=
  String.mk (s.toList.filter (fun c => c != '(' && c != ')'))

/-- The label of curve i: roc.label[i] when the label list is nonempty,
else the index-based fallback "class i".  (A nonempty label list shorter
than the curve list would raise IndexError in the source; that unreachable
case is not modelled — getD returns "" there.) -/
def curveLabel (labels : List String) (i : Nat) : String :=
  if labels.length > 0 then labels.getD i "" else s!"class {i}"

/-- class_name: the regex match with parens stripped when the pattern
matches, else the label itself. -/
def curveClassName (label : String) : String :=
  match classRegexMatch label with
  | some m => stripParens m
  | none => label

-- evaluate_auc

/-- Modelled from the spec: plot.ROC.from_raw_data is external curve
computation, "computes ROC curves (possibly multi-class)"; the result
carries one fpr/tpr point list per curve plus optional labels. -/
structure ROCResult where
  fpr : List (List ℚ)
  tpr : List (List ℚ)
  label : List String
deriving DecidableEq

def auc_threshold_low_range : Range := ⟨0, 6 / 10⟩

def auc_threshold_acceptable_range : Range := ⟨7 / 10, 8 / 10⟩

/-- The body of the evaluate_auc loop for curve index i.  aucFn is
sklearn.metrics.auc, an external metrics function. -/
def aucStep (aucFn : List ℚ → List ℚ → ℚ) (roc : ROCResult)
    (auc_section : ReportSection) (acc : PyState) (i : Nat) : PyState :=
  let fpr_i := roc.fpr.getD i []
  let tpr_i := roc.tpr.getD i []
  let roc_auc := aucFn fpr_i tpr_i
  let label := curveLabel roc.label i
  let class_name := curveClassName label
  if auc_threshold_low_range.in_range roc_auc then
    let acc := auc_section.append_guideline
      (.text ("Area under curve is low for " ++ class_name)) acc
    let acc := auc_section.append_guideline
      (.plot (.rocPerClass fpr_i tpr_i [label])) acc
    auc_section.append_guideline (.text guideLinkText) acc
  else if auc_threshold_acceptable_range.in_range roc_auc then
    let acc := auc_section.set_is_ok true acc
    auc_section.set_include_in_report false acc
  else
    let acc := auc_section.set_is_ok true acc
    auc_section.set_include_in_report false acc

/-- ModelEvaluator.evaluate_auc: iterates the banding logic over every
curve of the ROC result and appends the section. -/
def ModelEvaluator.evaluate_auc (aucFn : List ℚ → List ℚ → ℚ)
    (roc : ROCResult) (st : PyState) : PyState :=
  let (auc_section, st) := ReportSection.init st "auc"
  let st := (List.range roc.fpr.length).foldl (aucStep aucFn roc auc_section) st
  addSectionToReport auc_section st

/-- ModelEvaluator.generate_general_stats: always embeds a confusion-matrix
plot and a ROC plot. -/
def ModelEvaluator.generate_general_stats (y_true y_pred : List Int)
    (y_score : List (List ℚ)) (st : PyState) : PyState :=
  let (general_section, st) := ReportSection.init st "general_stats"
  let st := general_section.append_guideline
    (.plot (.confusionMatrixPlot y_true y_pred)) st
  let st := general_section.append_guideline (.plot (.rocPlot y_true y_score)) st
  addSectionToReport general_section st

-- ModelComparer

/-- A model object, as the capability contract of the spec: predict (hard
labels) and predict_proba (per-class probabilities); either call can raise,
which the embedding returns as an error value. -/
structure PModel where
  predict : List (List ℚ) → Except PyErr (List Int)
  predict_proba : List (List ℚ) → Except PyErr (List (List ℚ))

/-- Modelled from the spec: ModelHeuristics._get_calculate_failed_error is
not under src/; per-model failures are "converted into a guideline string
describing the failure (model identifier + caught error)". -/
def getCalculateFailedError (expression model_name : String) (exc : PyErr) :
    String :=
  s!"Failed to calculate {expression} for {model_name} - " ++ exc.str

/-- ModelComparer.precision_and_recall: per model, try predict_proba and
embed a precision-recall plot; a caught failure becomes a failure
guideline instead.  (The source misspells the key as percision_recall.) -/
def ModelComparer.precision_and_recall (model_a model_b : PModel)
    (X_test : List (List ℚ)) (y_true : List Int) (st : PyState) : PyState :=
  let (percision_recall_section, st) := ReportSection.init st "percision_recall"
  let st := match model_a.predict_proba X_test with
    | .ok y_prob_a =>
        percision_recall_section.append_guideline
          (.plot (.precisionRecallPlot y_true y_prob_a)) st
    | .error exc =>
        percision_recall_section.append_guideline
          (.text (getCalculateFailedError "percision_recall" "model A" exc)) st
  let st := match model_b.predict_proba X_test with
    | .ok y_prob_b =>
        percision_recall_section.append_guideline
          (.plot (.precisionRecallPlot y_true y_prob_b)) st
    | .error exc =>
        percision_recall_section.append_guideline
          (.text (getCalculateFailedError "percision_recall" "model B" exc)) st
  addSectionToReport percision_recall_section st

/-- The try-block of ModelComparer.auc for one model: predict_proba, then
get_roc_auc (repository code not under src/, passed as a parameter per the
spec: "compute one AUC value per class via ROC curves"), then the
singular/plural guideline; indexing roc_auc[0] on an empty list raises
IndexError, still inside the try. -/
def comparerAucTry (get_roc_auc : List Int → List (List ℚ) → List ℚ)
    (model : PModel) (modelTag : String) (X_test : List (List ℚ))
    (y_true : List Int) : Except PyErr Guideline := do
  let y_score ← model.predict_proba X_test
  let roc_auc := get_roc_auc y_true y_score
  if roc_auc.length > 1 then
    .ok (.text ("Model " ++ modelTag ++ " AUC (ROC) are " ++ toString roc_auc))
  else
    match roc_auc with
    | [] => .error (.exc "IndexError: list index out of range")
    | v :: _ => .ok (.text ("Model " ++ modelTag ++ " AUC (ROC) is " ++ toString v))

/-- ModelComparer.auc: per model, try the AUC computation and append the
resulting guideline; a caught failure becomes a failure guideline. -/
def ModelComparer.auc (get_roc_auc : List Int → List (List ℚ) → List ℚ)
    (model_a model_b : PModel) (X_test : List (List ℚ)) (y_true : List Int)
    (st : PyState) : PyState :=
  let (auc_section, st) := ReportSection.init st "auc"
  let st := match comparerAucTry get_roc_auc model_a "A" X_test y_true with
    | .ok g => auc_section.append_guideline g st
    | .error exc =>
        auc_section.append_guideline
          (.text (getCalculateFailedError "auc" "model A" exc)) st
  let st := match comparerAucTry get_roc_auc model_b "B" X_test y_true with
    | .ok g => auc_section.append_guideline g st
    | .error exc =>
        auc_section.append_guideline
          (.text (getCalculateFailedError "auc" "model B" exc)) st
  addSectionToReport auc_section st

/-- ModelComparer.computation.  get_model_computation_time is repository
code not under src/ (spec: "measures wall-clock prediction time for each
model"); the measured time is the value of this parameter. -/
def ModelComparer.computation
    (get_model_computation_time : PModel → List (List ℚ) → ℚ)
    (model_a model_b : PModel) (X_test : List (List ℚ)) (st : PyState) :
    PyState :=
  let (computation_section, st) := ReportSection.init st "computation"
  let model_a_compute_time := get_model_computation_time model_a X_test
  let model_b_compute_time := get_model_computation_time model_b X_test
  let compute_time_diff_threshold : ℚ := 1
  let st :=
    if |model_a_compute_time - model_b_compute_time|
        ≥ compute_time_diff_threshold then
      if model_a_compute_time > model_b_compute_time then
        computation_section.append_guideline
          (.text "Model A is a lot more computational expensive") st
      else
        computation_section.append_guideline
          (.text "Model B is a lot more computational expensive") st
    else st
  let st := computation_section.append_guideline
    (.text ("Model A compute time is " ++ toString model_a_compute_time
      ++ " (seconds)")) st
  let st := computation_section.append_guideline
    (.text ("Model B compute time is " ++ toString model_b_compute_time
      ++ " (seconds)")) st
  addSectionToReport computation_section st

/-- ModelComparer.calibration: per model, try predict_proba and embed a
calibration-curve plot; a caught failure becomes a failure guideline. -/
def ModelComparer.calibration (model_a model_b : PModel)
    (X_test : List (List ℚ)) (y_true : List Int) (st : PyState) : PyState :=
  let (calibration_section, st) := ReportSection.init st "calibration"
  let st := match model_a.predict_proba X_test with
    | .ok y_prob_a =>
        calibration_section.append_guideline
          (.plot (.calibrationPlot y_true y_prob_a)) st
    | .error exc =>
        calibration_section.append_guideline
          (.text (getCalculateFailedError "calibration" "model A" exc)) st
  let st := match model_b.predict_proba X_test with
    | .ok y_prob_b =>
        calibration_section.append_guideline
          (.plot (.calibrationPlot y_true y_prob_b)) st
    | .error exc =>
        calibration_section.append_guideline
          (.text (getCalculateFailedError "calibration" "model B" exc)) st
  addSectionToReport calibration_section st

/-- Modelled from the spec: combining two confusion matrices is
"element-wise sum semantics". -/
def cmAdd (a b : List (List Nat)) : List (List Nat) :=
  List.zipWith (List.zipWith (· + ·)) a b

/-- ModelComparer.add_combined_cm: calls predict on both models with NO
try/except, so a prediction failure propagates out of the check;
ConfusionMatrix.from_raw_data is repository plotting code not under src/,
passed as a parameter. -/
def ModelComparer.add_combined_cm
    (from_raw_data : List Int → List Int → List (List Nat))
    (model_a model_b : PModel) (X_test : List (List ℚ)) (y_true : List Int)
    (st : PyState) : Except PyErr PyState := do
  let (combined_confusion_matrix_section, st) :=
    ReportSection.init st "combined_confusion_matrix"
  let y_score_a ← model_a.predict X_test
  let y_score_b ← model_b.predict X_test
  let model_a_cm := from_raw_data y_true y_score_a
  let model_b_cm := from_raw_data y_true y_score_b
  let combined := cmAdd model_a_cm model_b_cm
  let st := combined_confusion_matrix_section.append_guideline
    (.plot (.combinedCMPlot combined)) st
  .ok (addSectionToReport combined_confusion_matrix_section st)

-- Report assembly and the exposed entry points

/-- A finalized report: the title and the ordered section mappings. -/
structure Report where
  title : String
  sections : List (String × SectionDict)
deriving DecidableEq

/-- Modelled from the spec: ModelHeuristics.create_report is not under
src/; it "assembles all sections appended so far into a finalized Report". -/
def createReport (title : String) (st : PyState) : Report :=
  { title := title
    sections := st.evaluationState.map (fun p => (p.1, st.deref p.2)) }

/-- compare_models: runs the five comparison checks in order on a fresh
comparer state and assembles the report; an uncaught exception in any
check aborts report generation. -/
def compare_models (get_roc_auc : List Int → List (List ℚ) → List ℚ)
    (get_model_computation_time : PModel → List (List ℚ) → ℚ)
    (from_raw_data : List Int → List Int → List (List Nat))
    (model_a model_b : PModel) (_X_train X_test : List (List ℚ))
    (y_true : List Int) : Except PyErr Report := do
  let st := PyState.empty
  let st := ModelComparer.precision_and_recall model_a model_b X_test y_true st
  let st := ModelComparer.auc get_roc_auc model_a model_b X_test y_true st
  let st := ModelComparer.computation get_model_computation_time
    model_a model_b X_test st
  let st := ModelComparer.calibration model_a model_b X_test y_true st
  let st ← ModelComparer.add_combined_cm from_raw_data
    model_a model_b X_test y_true st
  .ok (createReport "Compare models" st)

/-- evaluate_model: runs the four evaluator checks in order on a fresh
state and assembles the report; rocFromRaw stands for the external
plot.ROC.from_raw_data curve computation. -/
def evaluate_model (check_array_balance : List Int → Bool)
    (rocFromRaw : List Int → List (List ℚ) → ROCResult)
    (aucFn : List ℚ → List ℚ → ℚ) (y_true y_pred : List Int)
    (y_score : List (List ℚ)) : Except PyErr Report := do
  let st := PyState.empty
  let st := ModelEvaluator.evaluate_balance check_array_balance y_true st
  let st ← ModelEvaluator.evaluate_accuracy y_true y_pred st
  let st := ModelEvaluator.evaluate_auc aucFn (rocFromRaw y_true y_score) st
  let st := ModelEvaluator.generate_general_stats y_true y_pred y_score st
  .ok (createReport "Model evaluation" st)

-- Helpers for stating and proving the section-content lemmas

/-- A run of append_guideline calls on one section. -/
def appendMany (s : ReportSection) (gs : List Guideline) (st : PyState) :
    PyState :=
  gs.foldl (fun acc g => s.append_guideline g acc) st

/-- The guideline produced by a caught try-block: the guideline of the block
on success, the formatted failure guideline on a caught exception. -/
def caughtGuideline (expression model_name : String) :
    Except PyErr Guideline → Guideline
  | .ok g => g
  | .error exc => .text (getCalculateFailedError expression model_name exc)

-- Concrete objects used by witnesses and counterexamples

/-- A model whose predictions always succeed. -/
def okModel : PModel :=
  { predict := fun _ => .ok [0]
    predict_proba := fun _ => .ok [[1, 0]] }

/-- A model whose predict raises (e.g. an unfitted estimator) and which
lacks predict_proba. -/
def brokenModel : PModel :=
  { predict := fun _ => .error (.exc "NotFittedError")
    predict_proba := fun _ => .error (.exc "AttributeError: predict_proba") }

def grW : List Int → List (List ℚ) → List ℚ := fun _ _ => [1 / 2]

def gtW : PModel → List (List ℚ) → ℚ := fun _ _ => 0

def cmFromRawW : List Int → List Int → List (List Nat) := fun _ _ => [[1]]

/-- A freshly created section over the empty state, for the get_dict
aliasing counterexample. -/
def c4Pair : ReportSection × PyState :=
  ReportSection.init PyState.empty "balance" true


/-- The guideline sequence that ModelComparer.computation accumulates for
measured times tA and tB: the slower-model guideline exactly when the
absolute difference reaches the 1-second threshold, then both raw timing
guidelines. -/
def computationGuidelines (tA tB : ℚ) : List Guideline :=
  (if |tA - tB| ≥ 1 then
      [if tA > tB then
          Guideline.text "Model A is a lot more computational expensive"
        else
          Guideline.text "Model B is a lot more computational expensive"]
    else [])
    ++ [.text ("Model A compute time is " ++ toString tA ++ " (seconds)"),
      .text ("Model B compute time is " ++ toString tB ++ " (seconds)")]

-- Basic store lemmas

theorem PyState.length_modifyCell (st : PyState) (a : Nat)
    (f : SectionDict → SectionDict) :
    (st.modifyCell a f).cells.length = st.cells.length := by
  simp [PyState.modifyCell]

theorem PyState.deref_modifyCell_self (st : PyState) (a : Nat)
    (f : SectionDict → SectionDict) (h : a < st.cells.length) :
    (st.modifyCell a f).deref a = f (st.deref a) := by
  simp [PyState.modifyCell, PyState.deref, List.getD,
    List.getElem?_set_eq_of_lt _ h]

theorem PyState.deref_modifyCell_ne (st : PyState) (a b : Nat)
    (f : SectionDict → SectionDict) (h : a ≠ b) :
    (st.modifyCell a f).deref b = st.deref b := by
  simp [PyState.modifyCell, PyState.deref, List.getD, List.getElem?_set_ne h]

theorem PyState.evaluationState_modifyCell (st : PyState) (a : Nat)
    (f : SectionDict → SectionDict) :
    (st.modifyCell a f).evaluationState = st.evaluationState := rfl

theorem lookup_assocSet (l : List (String × Nat)) (k : String) (v : Nat) :
    (assocSet l k v).lookup k = some v := by
  induction l with
  | nil => simp [assocSet, List.lookup]
  | cons p rest ih =>
      obtain ⟨k0, v0⟩ := p
      by_cases h : k0 = k
      · subst h; simp [assocSet, List.lookup]
      · have h2 : (k == k0) = false := by
          simp [beq_iff_eq]; exact fun e => h e.symm
        simp [assocSet, h, List.lookup, ih, h2]

-- Field-preservation lemmas for the section mutators

theorem deref_append_guideline_self (s : ReportSection) (g : Guideline)
    (st : PyState) (h : s.addr < st.cells.length) :
    (s.append_guideline g st).deref s.addr =
      { st.deref s.addr with guidelines := (st.deref s.addr).guidelines ++ [g] } := by
  simp [ReportSection.append_guideline, PyState.deref_modifyCell_self _ _ _ h]

theorem deref_set_is_ok_self (s : ReportSection) (b : Bool)
    (st : PyState) (h : s.addr < st.cells.length) :
    (s.set_is_ok b st).deref s.addr = { st.deref s.addr with is_ok := b } := by
  simp [ReportSection.set_is_ok, PyState.deref_modifyCell_self _ _ _ h]

theorem deref_set_include_self (s : ReportSection) (b : Bool)
    (st : PyState) (h : s.addr < st.cells.length) :
    (s.set_include_in_report b st).deref s.addr =
      { st.deref s.addr with include_in_report := b } := by
  simp [ReportSection.set_include_in_report, PyState.deref_modifyCell_self _ _ _ h]

theorem length_append_guideline (s : ReportSection) (g : Guideline)
    (st : PyState) :
    (s.append_guideline g st).cells.length = st.cells.length :=
  PyState.length_modifyCell ..

theorem length_set_is_ok (s : ReportSection) (b : Bool) (st : PyState) :
    (s.set_is_ok b st).cells.length = st.cells.length :=
  PyState.length_modifyCell ..

theorem length_set_include (s : ReportSection) (b : Bool) (st : PyState) :
    (s.set_include_in_report b st).cells.length = st.cells.length :=
  PyState.length_modifyCell ..

theorem deref_init (st : PyState) (key : String) (inc : Bool) :
    (ReportSection.init st key inc).2.deref (ReportSection.init st key inc).1.addr
      = { guidelines := [], title := replaceUnderscore key,
          include_in_report := inc, is_ok := false } := by
  simp [ReportSection.init, PyState.deref, List.getD]

theorem addr_init_lt (st : PyState) (key : String) (inc : Bool) :
    (ReportSection.init st key inc).1.addr
      < (ReportSection.init st key inc).2.cells.length := by
  simp [ReportSection.init]

theorem evaluationState_init (st : PyState) (key : String) (inc : Bool) :
    (ReportSection.init st key inc).2.evaluationState = st.evaluationState := rfl

theorem sectionDict_addSection (s : ReportSection) (st : PyState) :
    (addSectionToReport s st).sectionDict s.key = some (st.deref s.addr) := by
  simp [addSectionToReport, PyState.sectionDict, lookup_assocSet,
    ReportSection.get_dict]
  rfl

theorem sectionDict_addSection_of_key (s : ReportSection) (st : PyState)
    (k : String) (hk : s.key = k) :
    (addSectionToReport s st).sectionDict k = some (st.deref s.addr) := by
  subst hk; exact sectionDict_addSection s st

theorem length_appendMany (s : ReportSection) (gs : List Guideline)
    (st : PyState) :
    (appendMany s gs st).cells.length = st.cells.length := by
  induction gs generalizing st with
  | nil => rfl
  | cons g gs ih =>
      simp only [appendMany, List.foldl_cons] at *
      rw [ih, length_append_guideline]

theorem deref_appendMany_self (s : ReportSection) (gs : List Guideline)
    (st : PyState) (h : s.addr < st.cells.length) :
    (appendMany s gs st).deref s.addr =
      { st.deref s.addr with
        guidelines := (st.deref s.addr).guidelines ++ gs } := by
  induction gs generalizing st with
  | nil => simp [appendMany]
  | cons g gs ih =>
      simp only [appendMany, List.foldl_cons] at *
      rw [ih _ (by rw [length_append_guideline]; exact h),
        deref_append_guideline_self _ _ _ h]
      simp

/-- A section created, filled with guidelines gs, and appended to the
report: the stored mapping. -/
theorem sectionDict_init_appendMany (st : PyState) (key : String) (inc : Bool)
    (gs : List Guideline) :
    (addSectionToReport (ReportSection.init st key inc).1
        (appendMany (ReportSection.init st key inc).1 gs
          (ReportSection.init st key inc).2)).sectionDict key
      = some { guidelines := gs, title := replaceUnderscore key,
               include_in_report := inc, is_ok := false } := by
  rw [sectionDict_addSection_of_key (ReportSection.init st key inc).1 _ key rfl,
    deref_appendMany_self _ _ _ (addr_init_lt st key inc), deref_init]
  simp

/-- A section created, marked ok and excluded, and appended to the report:
the stored mapping. -/
theorem sectionDict_init_okExcluded (st : PyState) (key : String) (inc : Bool) :
    (addSectionToReport (ReportSection.init st key inc).1
        ((ReportSection.init st key inc).1.set_include_in_report false
          ((ReportSection.init st key inc).1.set_is_ok true
            (ReportSection.init st key inc).2))).sectionDict key
      = some { guidelines := [], title := replaceUnderscore key,
               include_in_report := false, is_ok := true } := by
  rw [sectionDict_addSection_of_key (ReportSection.init st key inc).1 _ key rfl,
    deref_set_include_self _ _ _
      (by rw [length_set_is_ok]; exact addr_init_lt st key inc),
    deref_set_is_ok_self _ _ _ (addr_init_lt st key inc), deref_init]

theorem sectionFlags_of_sectionDict (st : PyState) (k : String)
    (d : SectionDict) (h : st.sectionDict k = some d) :
    st.sectionFlags k = some (d.is_ok, d.include_in_report) := by
  simp [PyState.sectionFlags, h]

theorem deref_init_lt (st : PyState) (key : String) (inc : Bool) (a : Nat)
    (h : a < st.cells.length) :
    (ReportSection.init st key inc).2.deref a = st.deref a := by
  simp [ReportSection.init, PyState.deref, List.getD,
    List.getElem?_append, h]

theorem deref_append_guideline_ne (s : ReportSection) (g : Guideline)
    (st : PyState) (b : Nat) (h : s.addr ≠ b) :
    (s.append_guideline g st).deref b = st.deref b :=
  PyState.deref_modifyCell_ne st s.addr b _ h

theorem addr_init (st : PyState) (key : String) (inc : Bool) :
    (ReportSection.init st key inc).1.addr = st.cells.length := rfl

-- Claim C6

/-- C6: calling evaluate_accuracy when no balance result is stored performs
a missing-key lookup on evaluation_state and surfaces as an uncaught fatal
KeyError; no section is appended and no recovery occurs. -/
theorem C6_evaluate_accuracy_before_balance_fatal (y_true y_pred : List Int)
    (st : PyState) (h : st.evaluationState.lookup "balance" = none) :
    ModelEvaluator.evaluate_accuracy y_true y_pred st
      = Except.error (.keyError "balance") := by
  simp only [ModelEvaluator.evaluate_accuracy, evaluationState_init, h]

/-- C6 witness: on a fresh evaluator state the lookup misses and the call
raises KeyError. -/
theorem C6_witness :
    PyState.empty.evaluationState.lookup "balance" = none
    ∧ ModelEvaluator.evaluate_accuracy [0, 1] [0, 1] PyState.empty
        = Except.error (.keyError "balance") :=
  ⟨rfl, C6_evaluate_accuracy_before_balance_fatal [0, 1] [0, 1] PyState.empty rfl⟩

-- Claim C1

/-- C1 (code bug): whenever the computed accuracy is at least 0.9 and the
stored balance section is ok, evaluate_accuracy does not complete: the
source line accuracy_section.append_guideline["is_ok"] = True performs item
assignment on a bound method and raises TypeError, so no section is
appended and no affirming guideline is produced, contradicting the claim. -/
theorem C1_evaluate_accuracy_raises_typeError (y_true y_pred : List Int)
    (st : PyState) (a : Nat)
    (hb : st.evaluationState.lookup "balance" = some a)
    (ha : a < st.cells.length) (hok : (st.deref a).is_ok = true)
    (hacc : accuracy_score y_true y_pred ≥ 9 / 10) :
    ModelEvaluator.evaluate_accuracy y_true y_pred st
      = Except.error (.typeError appendGuidelineItemAssignment) := by
  have hne : (ReportSection.init st "accuracy" true).1.addr ≠ a := by
    rw [addr_init]; omega
  simp only [ModelEvaluator.evaluate_accuracy, evaluationState_init, hb]
  rw [if_pos hacc, deref_append_guideline_ne _ _ _ _ hne,
    deref_init_lt _ _ _ _ ha]
  rw [if_pos]
  exact hok

/-- C1 witness: the failing input — a balanced run (balance section ok)
followed by perfectly accurate predictions. -/
theorem C1_witness :
    (ModelEvaluator.evaluate_balance (fun _ => true) [0, 1]
        PyState.empty).evaluationState.lookup "balance" = some 0
    ∧ accuracy_score [0, 1] [0, 1] ≥ 9 / 10
    ∧ ModelEvaluator.evaluate_accuracy [0, 1] [0, 1]
        (ModelEvaluator.evaluate_balance (fun _ => true) [0, 1] PyState.empty)
      = Except.error (.typeError appendGuidelineItemAssignment) :=
  ⟨rfl, by norm_num [accuracy_score],
    C1_evaluate_accuracy_raises_typeError [0, 1] [0, 1] _ 0 rfl
      (by decide) rfl (by norm_num [accuracy_score])⟩

theorem evaluate_balance_ok_dict (check : List Int → Bool) (y : List Int)
    (st : PyState) (h : check y = true) :
    (ModelEvaluator.evaluate_balance check y st).sectionDict "balance"
      = some { guidelines := [.text "your model is balanced"],
               title := "balance", include_in_report := true,
               is_ok := true } := by
  have e : ModelEvaluator.evaluate_balance check y st
      = addSectionToReport (ReportSection.init st "balance" true).1
          (appendMany (ReportSection.init st "balance" true).1
            [.text "your model is balanced"]
            ((ReportSection.init st "balance" true).1.set_is_ok true
              (ReportSection.init st "balance" true).2)) := by
    simp [ModelEvaluator.evaluate_balance, h, appendMany]
  rw [e, sectionDict_addSection_of_key (ReportSection.init st "balance" true).1
      _ "balance" rfl,
    deref_appendMany_self _ _ _
      (by rw [length_set_is_ok]; exact addr_init_lt st "balance" true),
    deref_set_is_ok_self _ _ _ (addr_init_lt st "balance" true), deref_init]
  decide

theorem evaluate_balance_imbalanced_dict (check : List Int → Bool)
    (y : List Int) (st : PyState) (h : check y = false) :
    (ModelEvaluator.evaluate_balance check y st).sectionDict "balance"
      = some { guidelines := [.text "Your test set is highly imbalanced",
                 .plot (.targetAnalysis y), .text guideLinkText],
               title := "balance", include_in_report := true,
               is_ok := false } := by
  have e : ModelEvaluator.evaluate_balance check y st
      = addSectionToReport (ReportSection.init st "balance" true).1
          (appendMany (ReportSection.init st "balance" true).1
            [.text "Your test set is highly imbalanced",
              .plot (.targetAnalysis y), .text guideLinkText]
            ((ReportSection.init st "balance" true).1.set_is_ok false
              (ReportSection.init st "balance" true).2)) := by
    simp [ModelEvaluator.evaluate_balance, h, appendMany]
  have ht : replaceUnderscore "balance" = "balance" := by decide
  rw [e, sectionDict_addSection_of_key (ReportSection.init st "balance" true).1
      _ "balance" rfl,
    deref_appendMany_self _ _ _
      (by rw [length_set_is_ok]; exact addr_init_lt st "balance" true),
    deref_set_is_ok_self _ _ _ (addr_init_lt st "balance" true), deref_init]
  simp [ht]

-- Claim C5

/-- C5: when the external balance heuristic classifies y_true as balanced,
evaluate_balance stores an ok section whose only guideline is the affirming
text (no embedded plot); when it classifies it as imbalanced, the stored
section is not ok and has exactly the three guidelines: the problem text,
one embedded target-distribution plot, and the remediation link. -/
theorem C5_evaluate_balance_banding (check : List Int → Bool) (y : List Int)
    (st : PyState) :
    (check y = true →
      (ModelEvaluator.evaluate_balance check y st).sectionDict "balance"
        = some { guidelines := [.text "your model is balanced"],
                 title := "balance", include_in_report := true,
                 is_ok := true })
    ∧ (check y = false →
      (ModelEvaluator.evaluate_balance check y st).sectionDict "balance"
        = some { guidelines := [.text "Your test set is highly imbalanced",
                   .plot (.targetAnalysis y), .text guideLinkText],
                 title := "balance", include_in_report := true,
                 is_ok := false }) :=
  ⟨evaluate_balance_ok_dict check y st, evaluate_balance_imbalanced_dict check y st⟩

/-- C5 witness: a heuristic that reports balanced, and one that reports
imbalanced, on the label vector [0, 1]. -/
theorem C5_witness :
    (ModelEvaluator.evaluate_balance (fun _ => true) [0, 1]
        PyState.empty).sectionDict "balance"
      = some { guidelines := [.text "your model is balanced"],
               title := "balance", include_in_report := true, is_ok := true }
    ∧ (ModelEvaluator.evaluate_balance (fun _ => false) [0, 1]
        PyState.empty).sectionDict "balance"
      = some { guidelines := [.text "Your test set is highly imbalanced",
                 .plot (.targetAnalysis [0, 1]), .text guideLinkText],
               title := "balance", include_in_report := true, is_ok := false } :=
  ⟨(C5_evaluate_balance_banding (fun _ => true) [0, 1] PyState.empty).1 rfl,
    (C5_evaluate_balance_banding (fun _ => false) [0, 1] PyState.empty).2 rfl⟩

-- Claim C7

/-- C7: creating a ReportSection yields an empty guideline sequence,
is_ok = false, include_in_report equal to the given flag (whose default is
true), and a title equal to the key with every underscore replaced by a
space. -/
theorem C7_report_section_create (st : PyState) (key : String) (inc : Bool) :
    (ReportSection.init st key inc).2.deref
        (ReportSection.init st key inc).1.get_dict
      = { guidelines := [], title := replaceUnderscore key,
          include_in_report := inc, is_ok := false }
    ∧ ReportSection.init st key = ReportSection.init st key true :=
  ⟨deref_init st key inc, rfl⟩

-- Claim C4

/-- C4 counterexample: get_dict does not return an immutable snapshot — on
a freshly created section, appending a guideline after the get_dict call
changes the mapping previously returned (it is the same live dict). -/
theorem C4_counterexample :
    (c4Pair.1.append_guideline (.text "x") c4Pair.2).deref c4Pair.1.get_dict
      ≠ c4Pair.2.deref c4Pair.1.get_dict := by
  decide

/-- C4 amended: get_dict returns a reference to the live mapping of the section,
not a snapshot; reading it twice on an unmodified section yields identical
mappings (the read is deterministic), but every later mutation —
append_guideline, set_is_ok, set_include_in_report — is visible through the
previously returned mapping. -/
theorem C4_get_dict_is_live (st : PyState) (s : ReportSection)
    (g : Guideline) (b c : Bool) (h : s.addr < st.cells.length) :
    (s.append_guideline g st).deref s.get_dict
        = { st.deref s.get_dict with
            guidelines := (st.deref s.get_dict).guidelines ++ [g] }
    ∧ (s.set_is_ok b st).deref s.get_dict
        = { st.deref s.get_dict with is_ok := b }
    ∧ (s.set_include_in_report c st).deref s.get_dict
        = { st.deref s.get_dict with include_in_report := c } :=
  ⟨deref_append_guideline_self s g st h, deref_set_is_ok_self s b st h,
    deref_set_include_self s c st h⟩

/-- C4 witness: the live-mapping behavior on a concrete fresh section. -/
theorem C4_witness :
    c4Pair.1.addr < c4Pair.2.cells.length
    ∧ ((c4Pair.1.append_guideline (.text "x") c4Pair.2).deref c4Pair.1.get_dict
        = { c4Pair.2.deref c4Pair.1.get_dict with
            guidelines := (c4Pair.2.deref c4Pair.1.get_dict).guidelines
              ++ [.text "x"] }
      ∧ (c4Pair.1.set_is_ok true c4Pair.2).deref c4Pair.1.get_dict
        = { c4Pair.2.deref c4Pair.1.get_dict with is_ok := true }
      ∧ (c4Pair.1.set_include_in_report false c4Pair.2).deref c4Pair.1.get_dict
        = { c4Pair.2.deref c4Pair.1.get_dict with include_in_report := false }) :=
  ⟨by decide, C4_get_dict_is_live c4Pair.2 c4Pair.1 (.text "x") true false
    (by decide)⟩

-- Claim C8

theorem computation_dict
    (gt : PModel → List (List ℚ) → ℚ) (mA mB : PModel)
    (X : List (List ℚ)) (st : PyState) :
    (ModelComparer.computation gt mA mB X st).sectionDict "computation"
      = some { guidelines := computationGuidelines (gt mA X) (gt mB X),
               title := "computation", include_in_report := true,
               is_ok := false } := by
  have ht : replaceUnderscore "computation" = "computation" := by decide
  by_cases h1 : |gt mA X - gt mB X| ≥ 1
  · by_cases h2 : gt mA X > gt mB X
    · have e : ModelComparer.computation gt mA mB X st
          = addSectionToReport (ReportSection.init st "computation" true).1
              (appendMany (ReportSection.init st "computation" true).1
                [.text "Model A is a lot more computational expensive",
                  .text ("Model A compute time is " ++ toString (gt mA X)
                    ++ " (seconds)"),
                  .text ("Model B compute time is " ++ toString (gt mB X)
                    ++ " (seconds)")]
                (ReportSection.init st "computation" true).2) := by
        simp [ModelComparer.computation, appendMany, h1, h2]
      rw [e, sectionDict_init_appendMany]
      simp [computationGuidelines, h1, h2, ht]
    · have e : ModelComparer.computation gt mA mB X st
          = addSectionToReport (ReportSection.init st "computation" true).1
              (appendMany (ReportSection.init st "computation" true).1
                [.text "Model B is a lot more computational expensive",
                  .text ("Model A compute time is " ++ toString (gt mA X)
                    ++ " (seconds)"),
                  .text ("Model B compute time is " ++ toString (gt mB X)
                    ++ " (seconds)")]
                (ReportSection.init st "computation" true).2) := by
        simp [ModelComparer.computation, appendMany, h1, h2]
      rw [e, sectionDict_init_appendMany]
      simp [computationGuidelines, h1, h2, ht]
  · have e : ModelComparer.computation gt mA mB X st
        = addSectionToReport (ReportSection.init st "computation" true).1
            (appendMany (ReportSection.init st "computation" true).1
              [.text ("Model A compute time is " ++ toString (gt mA X)
                  ++ " (seconds)"),
                .text ("Model B compute time is " ++ toString (gt mB X)
                  ++ " (seconds)")]
              (ReportSection.init st "computation" true).2) := by
      simp [ModelComparer.computation, appendMany, h1]
    rw [e, sectionDict_init_appendMany]
    simp [computationGuidelines, h1, ht]

theorem precision_and_recall_eq (mA mB : PModel) (X : List (List ℚ))
    (y : List Int) (st : PyState) :
    ModelComparer.precision_and_recall mA mB X y st
      = addSectionToReport (ReportSection.init st "percision_recall" true).1
          (appendMany (ReportSection.init st "percision_recall" true).1
            [caughtGuideline "percision_recall" "model A"
              ((mA.predict_proba X).map fun p =>
                .plot (.precisionRecallPlot y p)),
              caughtGuideline "percision_recall" "model B"
              ((mB.predict_proba X).map fun p =>
                .plot (.precisionRecallPlot y p))]
            (ReportSection.init st "percision_recall" true).2) := by
  cases hA : mA.predict_proba X <;> cases hB : mB.predict_proba X <;>
    simp [ModelComparer.precision_and_recall, appendMany, caughtGuideline,
      hA, hB, Except.map]

theorem precision_and_recall_dict (mA mB : PModel) (X : List (List ℚ))
    (y : List Int) (st : PyState) :
    (ModelComparer.precision_and_recall mA mB X y st).sectionDict
        "percision_recall"
      = some { guidelines :=
                 [caughtGuideline "percision_recall" "model A"
                   ((mA.predict_proba X).map fun p =>
                     .plot (.precisionRecallPlot y p)),
                   caughtGuideline "percision_recall" "model B"
                   ((mB.predict_proba X).map fun p =>
                     .plot (.precisionRecallPlot y p))],
               title := "percision recall", include_in_report := true,
               is_ok := false } := by
  rw [precision_and_recall_eq, sectionDict_init_appendMany]
  have ht : replaceUnderscore "percision_recall" = "percision recall" := by
    decide
  simp [ht]

theorem calibration_eq (mA mB : PModel) (X : List (List ℚ))
    (y : List Int) (st : PyState) :
    ModelComparer.calibration mA mB X y st
      = addSectionToReport (ReportSection.init st "calibration" true).1
          (appendMany (ReportSection.init st "calibration" true).1
            [caughtGuideline "calibration" "model A"
              ((mA.predict_proba X).map fun p => .plot (.calibrationPlot y p)),
              caughtGuideline "calibration" "model B"
              ((mB.predict_proba X).map fun p => .plot (.calibrationPlot y p))]
            (ReportSection.init st "calibration" true).2) := by
  cases hA : mA.predict_proba X <;> cases hB : mB.predict_proba X <;>
    simp [ModelComparer.calibration, appendMany, caughtGuideline,
      hA, hB, Except.map]

theorem calibration_dict (mA mB : PModel) (X : List (List ℚ))
    (y : List Int) (st : PyState) :
    (ModelComparer.calibration mA mB X y st).sectionDict "calibration"
      = some { guidelines :=
                 [caughtGuideline "calibration" "model A"
                   ((mA.predict_proba X).map fun p =>
                     .plot (.calibrationPlot y p)),
                   caughtGuideline "calibration" "model B"
                   ((mB.predict_proba X).map fun p =>
                     .plot (.calibrationPlot y p))],
               title := "calibration", include_in_report := true,
               is_ok := false } := by
  rw [calibration_eq, sectionDict_init_appendMany]
  have ht : replaceUnderscore "calibration" = "calibration" := by decide
  simp [ht]

theorem comparer_auc_eq (gr : List Int → List (List ℚ) → List ℚ)
    (mA mB : PModel) (X : List (List ℚ)) (y : List Int) (st : PyState) :
    ModelComparer.auc gr mA mB X y st
      = addSectionToReport (ReportSection.init st "auc" true).1
          (appendMany (ReportSection.init st "auc" true).1
            [caughtGuideline "auc" "model A" (comparerAucTry gr mA "A" X y),
              caughtGuideline "auc" "model B" (comparerAucTry gr mB "B" X y)]
            (ReportSection.init st "auc" true).2) := by
  cases hA : comparerAucTry gr mA "A" X y <;>
    cases hB : comparerAucTry gr mB "B" X y <;>
    simp [ModelComparer.auc, appendMany, caughtGuideline, hA, hB]

theorem comparer_auc_dict (gr : List Int → List (List ℚ) → List ℚ)
    (mA mB : PModel) (X : List (List ℚ)) (y : List Int) (st : PyState) :
    (ModelComparer.auc gr mA mB X y st).sectionDict "auc"
      = some { guidelines :=
                 [caughtGuideline "auc" "model A" (comparerAucTry gr mA "A" X y),
                   caughtGuideline "auc" "model B"
                     (comparerAucTry gr mB "B" X y)],
               title := "auc", include_in_report := true,
               is_ok := false } := by
  rw [comparer_auc_eq, sectionDict_init_appendMany]
  have ht : replaceUnderscore "auc" = "auc" := by decide
  simp [ht]

theorem add_combined_cm_ok (fr : List Int → List Int → List (List Nat))
    (mA mB : PModel) (X : List (List ℚ)) (y : List Int) (st : PyState)
    (la lb : List Int) (hA : mA.predict X = .ok la)
    (hB : mB.predict X = .ok lb) :
    ModelComparer.add_combined_cm fr mA mB X y st
      = .ok (addSectionToReport
          (ReportSection.init st "combined_confusion_matrix" true).1
          (appendMany (ReportSection.init st "combined_confusion_matrix" true).1
            [.plot (.combinedCMPlot (cmAdd (fr y la) (fr y lb)))]
            (ReportSection.init st "combined_confusion_matrix" true).2)) := by
  simp [ModelComparer.add_combined_cm, hA, hB, appendMany, Bind.bind,
    Except.instMonad, Except.bind]

theorem add_combined_cm_err_a (fr : List Int → List Int → List (List Nat))
    (mA mB : PModel) (X : List (List ℚ)) (y : List Int) (st : PyState)
    (e : PyErr) (hA : mA.predict X = .error e) :
    ModelComparer.add_combined_cm fr mA mB X y st = .error e := by
  simp [ModelComparer.add_combined_cm, hA, Bind.bind, Except.instMonad,
    Except.bind]

theorem add_combined_cm_err_b (fr : List Int → List Int → List (List Nat))
    (mA mB : PModel) (X : List (List ℚ)) (y : List Int) (st : PyState)
    (la : List Int) (e : PyErr) (hA : mA.predict X = .ok la)
    (hB : mB.predict X = .error e) :
    ModelComparer.add_combined_cm fr mA mB X y st = .error e := by
  simp [ModelComparer.add_combined_cm, hA, hB, Bind.bind, Except.instMonad,
    Except.bind]

-- Claim C8

/-- C8: computation appends a guideline naming the more computationally
expensive model exactly when the absolute difference of the two measured
prediction times is at least 1 second, and in every case appends both raw
timing guidelines (model A first, then model B), so the section holds two or
three guidelines. -/
theorem C8_computation_guidelines
    (gt : PModel → List (List ℚ) → ℚ) (mA mB : PModel)
    (X : List (List ℚ)) (st : PyState) :
    (ModelComparer.computation gt mA mB X st).sectionDict "computation"
      = some { guidelines := computationGuidelines (gt mA X) (gt mB X),
               title := "computation", include_in_report := true,
               is_ok := false } :=
  computation_dict gt mA mB X st

-- Claim C9

/-- C9: no ModelComparer check calls set_is_ok or set_include_in_report,
so every comparison section keeps its construction defaults
is_ok = false and include_in_report = true — no comparison section is ever
marked ok or excluded from the report. -/
theorem C9_comparer_sections_keep_defaults
    (mA mB : PModel) (X : List (List ℚ)) (y : List Int) (st : PyState)
    (gr : List Int → List (List ℚ) → List ℚ)
    (gt : PModel → List (List ℚ) → ℚ)
    (fr : List Int → List Int → List (List Nat)) (st2 : PyState) :
    (ModelComparer.precision_and_recall mA mB X y st).sectionFlags
        "percision_recall" = some (false, true)
    ∧ (ModelComparer.auc gr mA mB X y st).sectionFlags "auc"
        = some (false, true)
    ∧ (ModelComparer.computation gt mA mB X st).sectionFlags "computation"
        = some (false, true)
    ∧ (ModelComparer.calibration mA mB X y st).sectionFlags "calibration"
        = some (false, true)
    ∧ (ModelComparer.add_combined_cm fr mA mB X y st = .ok st2 →
        st2.sectionFlags "combined_confusion_matrix" = some (false, true)) := by
  refine ⟨?_, ?_, ?_, ?_, ?_⟩
  · exact sectionFlags_of_sectionDict _ _ _ (precision_and_recall_dict mA mB X y st)
  · exact sectionFlags_of_sectionDict _ _ _ (comparer_auc_dict gr mA mB X y st)
  · exact sectionFlags_of_sectionDict _ _ _ (computation_dict gt mA mB X st)
  · exact sectionFlags_of_sectionDict _ _ _ (calibration_dict mA mB X y st)
  · intro h
    cases hA : mA.predict X with
    | error e =>
        rw [add_combined_cm_err_a fr mA mB X y st e hA] at h
        exact absurd h (by simp)
    | ok la =>
        cases hB : mB.predict X with
        | error e =>
            rw [add_combined_cm_err_b fr mA mB X y st la e hA hB] at h
            exact absurd h (by simp)
        | ok lb =>
            rw [add_combined_cm_ok fr mA mB X y st la lb hA hB] at h
            injection h with h2
            subst h2
            exact sectionFlags_of_sectionDict _ _ _
              (sectionDict_init_appendMany st "combined_confusion_matrix" true _)

/-- C9 witness: concrete models for which all five checks run, with the
combined-confusion-matrix check succeeding. -/
theorem C9_witness :
    (ModelComparer.precision_and_recall okModel brokenModel [[0]] [0]
        PyState.empty).sectionFlags "percision_recall" = some (false, true)
    ∧ (ModelComparer.auc grW okModel brokenModel [[0]] [0]
        PyState.empty).sectionFlags "auc" = some (false, true)
    ∧ (ModelComparer.computation gtW okModel brokenModel [[0]]
        PyState.empty).sectionFlags "computation" = some (false, true)
    ∧ (ModelComparer.calibration okModel brokenModel [[0]] [0]
        PyState.empty).sectionFlags "calibration" = some (false, true)
    ∧ (ModelComparer.add_combined_cm cmFromRawW okModel okModel [[0]] [0]
        PyState.empty = .ok
          (addSectionToReport
            (ReportSection.init PyState.empty "combined_confusion_matrix" true).1
            (appendMany
              (ReportSection.init PyState.empty "combined_confusion_matrix" true).1
              [.plot (.combinedCMPlot (cmAdd (cmFromRawW [0] [0])
                (cmFromRawW [0] [0])))]
              (ReportSection.init PyState.empty "combined_confusion_matrix"
                true).2))
        ∧ (addSectionToReport
            (ReportSection.init PyState.empty "combined_confusion_matrix" true).1
            (appendMany
              (ReportSection.init PyState.empty "combined_confusion_matrix" true).1
              [.plot (.combinedCMPlot (cmAdd (cmFromRawW [0] [0])
                (cmFromRawW [0] [0])))]
              (ReportSection.init PyState.empty "combined_confusion_matrix"
                true).2)).sectionFlags "combined_confusion_matrix"
          = some (false, true)) := by
  refine ⟨?_, ?_, ?_, ?_, add_combined_cm_ok cmFromRawW okModel okModel [[0]]
    [0] PyState.empty [0] [0] rfl rfl, ?_⟩
  · exact (C9_comparer_sections_keep_defaults okModel brokenModel [[0]] [0]
      PyState.empty grW gtW cmFromRawW PyState.empty).1
  · exact (C9_comparer_sections_keep_defaults okModel brokenModel [[0]] [0]
      PyState.empty grW gtW cmFromRawW PyState.empty).2.1
  · exact (C9_comparer_sections_keep_defaults okModel brokenModel [[0]] [0]
      PyState.empty grW gtW cmFromRawW PyState.empty).2.2.1
  · exact (C9_comparer_sections_keep_defaults okModel brokenModel [[0]] [0]
      PyState.empty grW gtW cmFromRawW PyState.empty).2.2.2.1
  · exact (C9_comparer_sections_keep_defaults okModel okModel [[0]] [0]
      PyState.empty grW gtW cmFromRawW _).2.2.2.2
      (add_combined_cm_ok cmFromRawW okModel okModel [[0]] [0] PyState.empty
        [0] [0] rfl rfl)

theorem comparerAucTry_err (gr : List Int → List (List ℚ) → List ℚ)
    (m : PModel) (tag : String) (X : List (List ℚ)) (y : List Int)
    (e : PyErr) (h : m.predict_proba X = .error e) :
    comparerAucTry gr m tag X y = .error e := by
  simp [comparerAucTry, h, Bind.bind, Except.instMonad, Except.bind]

-- Claim C2

/-- C2 counterexample: the claim is false as stated for add_combined_cm —
a failure accessing the predictions of a model inside that check is not caught:
with a model whose predict raises, the check itself and the whole
compare_models report generation abort with the propagated error instead
of converting it into a guideline. -/
theorem C2_counterexample :
    ModelComparer.add_combined_cm cmFromRawW okModel brokenModel [[0]] [0]
        PyState.empty = Except.error (PyErr.exc "NotFittedError")
    ∧ compare_models grW gtW cmFromRawW okModel brokenModel [[0]] [[0]] [0]
        = Except.error (PyErr.exc "NotFittedError") :=
  ⟨rfl, rfl⟩

/-- C2 amended: in the checks that guard model access with a handler
(precision_and_recall, auc, calibration), a failure accessing the
predictions of one model is caught within the check and becomes a guideline naming the
model and the captured error, the other model is still evaluated and the
section is still appended — in particular, if model B lacks probability
prediction, precision_and_recall stores exactly one success guideline
(the plot of model A) and one failure guideline (model B), and the auc
check likewise stores the model A guideline followed by the failure
guideline naming model B and the error; add_combined_cm, however, calls
predict with no handler, so a prediction failure there propagates out of
the check. -/
theorem C2_per_model_failure_isolation
    (mA mB : PModel) (X : List (List ℚ)) (y : List Int) (st : PyState)
    (pa : List (List ℚ)) (e : PyErr)
    (hA : mA.predict_proba X = .ok pa) (hB : mB.predict_proba X = .error e) :
    (ModelComparer.precision_and_recall mA mB X y st).sectionDict
        "percision_recall"
      = some { guidelines := [.plot (.precisionRecallPlot y pa),
                 .text (getCalculateFailedError "percision_recall"
                   "model B" e)],
               title := "percision recall", include_in_report := true,
               is_ok := false }
    ∧ (ModelComparer.calibration mA mB X y st).sectionDict "calibration"
      = some { guidelines := [.plot (.calibrationPlot y pa),
                 .text (getCalculateFailedError "calibration" "model B" e)],
               title := "calibration", include_in_report := true,
               is_ok := false }
    ∧ (∀ gr : List Int → List (List ℚ) → List ℚ,
        (ModelComparer.auc gr mA mB X y st).sectionDict "auc"
          = some { guidelines :=
                     [caughtGuideline "auc" "model A"
                       (comparerAucTry gr mA "A" X y),
                       .text (getCalculateFailedError "auc" "model B" e)],
                   title := "auc", include_in_report := true,
                   is_ok := false })
    ∧ ∀ (fr : List Int → List Int → List (List Nat)) (e2 : PyErr)
        (la : List Int), mA.predict X = .ok la → mB.predict X = .error e2 →
          ModelComparer.add_combined_cm fr mA mB X y st = .error e2 := by
  refine ⟨?_, ?_, ?_, fun fr e2 la hA2 hB2 =>
    add_combined_cm_err_b fr mA mB X y st la e2 hA2 hB2⟩
  · rw [precision_and_recall_dict]
    simp [hA, hB, caughtGuideline, Except.map]
  · rw [calibration_dict]
    simp [hA, hB, caughtGuideline, Except.map]
  · intro gr
    rw [comparer_auc_dict]
    simp [comparerAucTry_err gr mB "B" X y e hB, caughtGuideline]

/-- C2 witness: model A succeeds, model B lacks predict_proba and its
predict raises. -/
theorem C2_witness :
    (ModelComparer.precision_and_recall okModel brokenModel [[0]] [0]
        PyState.empty).sectionDict "percision_recall"
      = some { guidelines := [.plot (.precisionRecallPlot [0] [[1, 0]]),
                 .text (getCalculateFailedError "percision_recall" "model B"
                   (.exc "AttributeError: predict_proba"))],
               title := "percision recall", include_in_report := true,
               is_ok := false }
    ∧ (ModelComparer.calibration okModel brokenModel [[0]] [0]
        PyState.empty).sectionDict "calibration"
      = some { guidelines := [.plot (.calibrationPlot [0] [[1, 0]]),
                 .text (getCalculateFailedError "calibration" "model B"
                   (.exc "AttributeError: predict_proba"))],
               title := "calibration", include_in_report := true,
               is_ok := false }
    ∧ (ModelComparer.auc grW okModel brokenModel [[0]] [0]
        PyState.empty).sectionDict "auc"
      = some { guidelines :=
                 [caughtGuideline "auc" "model A"
                   (comparerAucTry grW okModel "A" [[0]] [0]),
                   .text (getCalculateFailedError "auc" "model B"
                     (.exc "AttributeError: predict_proba"))],
               title := "auc", include_in_report := true, is_ok := false }
    ∧ ModelComparer.add_combined_cm cmFromRawW okModel brokenModel [[0]] [0]
        PyState.empty = .error (.exc "NotFittedError") := by
  obtain ⟨h1, h2, h3, h4⟩ := C2_per_model_failure_isolation okModel
    brokenModel [[0]] [0] PyState.empty [[1, 0]]
    (.exc "AttributeError: predict_proba") rfl rfl
  exact ⟨h1, h2, h3 grW, h4 cmFromRawW (.exc "NotFittedError") [0] rfl rfl⟩

theorem in_range_low_half : auc_threshold_low_range.in_range (1 / 2) = true := by
  simp [Range.in_range, auc_threshold_low_range]
  norm_num

theorem in_range_low_34 : auc_threshold_low_range.in_range (3 / 4) = false := by
  simp [Range.in_range, auc_threshold_low_range]
  norm_num

theorem evaluate_auc_single_low (aucFn : List ℚ → List ℚ → ℚ)
    (f t : List ℚ) (lbls : List String) (st : PyState)
    (hv : auc_threshold_low_range.in_range (aucFn f t) = true) :
    (ModelEvaluator.evaluate_auc aucFn ⟨[f], [t], lbls⟩ st).sectionDict "auc"
      = some { guidelines :=
                 [.text ("Area under curve is low for "
                    ++ curveClassName (curveLabel lbls 0)),
                   .plot (.rocPerClass f t [curveLabel lbls 0]),
                   .text guideLinkText],
               title := "auc", include_in_report := true,
               is_ok := false } := by
  have e : ModelEvaluator.evaluate_auc aucFn ⟨[f], [t], lbls⟩ st
      = addSectionToReport (ReportSection.init st "auc" true).1
          (appendMany (ReportSection.init st "auc" true).1
            [.text ("Area under curve is low for "
               ++ curveClassName (curveLabel lbls 0)),
              .plot (.rocPerClass f t [curveLabel lbls 0]),
              .text guideLinkText]
            (ReportSection.init st "auc" true).2) := by
    have hr : List.range 1 = [0] := rfl
    simp [ModelEvaluator.evaluate_auc, aucStep, appendMany, hv, hr]
  rw [e, sectionDict_init_appendMany]
  have ht : replaceUnderscore "auc" = "auc" := by decide
  simp [ht]

theorem evaluate_auc_single_notlow (aucFn : List ℚ → List ℚ → ℚ)
    (f t : List ℚ) (lbls : List String) (st : PyState)
    (hv : auc_threshold_low_range.in_range (aucFn f t) = false) :
    (ModelEvaluator.evaluate_auc aucFn ⟨[f], [t], lbls⟩ st).sectionDict "auc"
      = some { guidelines := [], title := "auc",
               include_in_report := false, is_ok := true } := by
  have e : ModelEvaluator.evaluate_auc aucFn ⟨[f], [t], lbls⟩ st
      = addSectionToReport (ReportSection.init st "auc" true).1
          ((ReportSection.init st "auc" true).1.set_include_in_report false
            ((ReportSection.init st "auc" true).1.set_is_ok true
              (ReportSection.init st "auc" true).2)) := by
    have hr : List.range 1 = [0] := rfl
    simp [ModelEvaluator.evaluate_auc, aucStep, hv, hr]
  rw [e, sectionDict_init_okExcluded]
  have ht : replaceUnderscore "auc" = "auc" := by decide
  simp [ht]

theorem in_range_low_95 : auc_threshold_low_range.in_range (19 / 20) = false := by
  simp [Range.in_range, auc_threshold_low_range]
  norm_num

-- Claim C3

/-- C3: single-curve AUC banding — a computed AUC of 0.5 (low band) leaves
the section not-ok and included, with the low guideline, the per-class ROC
plot and the remediation link; computed AUCs of 0.75 (acceptable band) and
0.95 (outside both bands) mark the section ok and excluded from the report
with no guideline appended. -/
theorem C3_evaluate_auc_single_curve_banding (aucFn : List ℚ → List ℚ → ℚ)
    (f t : List ℚ) (lbls : List String) (st : PyState) :
    (aucFn f t = 1 / 2 →
      (ModelEvaluator.evaluate_auc aucFn ⟨[f], [t], lbls⟩ st).sectionDict "auc"
        = some { guidelines :=
                   [.text ("Area under curve is low for "
                      ++ curveClassName (curveLabel lbls 0)),
                     .plot (.rocPerClass f t [curveLabel lbls 0]),
                     .text guideLinkText],
                 title := "auc", include_in_report := true, is_ok := false })
    ∧ (aucFn f t = 3 / 4 →
      (ModelEvaluator.evaluate_auc aucFn ⟨[f], [t], lbls⟩ st).sectionDict "auc"
        = some { guidelines := [], title := "auc",
                 include_in_report := false, is_ok := true })
    ∧ (aucFn f t = 19 / 20 →
      (ModelEvaluator.evaluate_auc aucFn ⟨[f], [t], lbls⟩ st).sectionDict "auc"
        = some { guidelines := [], title := "auc",
                 include_in_report := false, is_ok := true }) := by
  refine ⟨fun hv => ?_, fun hv => ?_, fun hv => ?_⟩
  · exact evaluate_auc_single_low aucFn f t lbls st
      (by rw [hv]; exact in_range_low_half)
  · exact evaluate_auc_single_notlow aucFn f t lbls st
      (by rw [hv]; exact in_range_low_34)
  · exact evaluate_auc_single_notlow aucFn f t lbls st
      (by rw [hv]; exact in_range_low_95)

/-- C3 witness: three constant AUC computations at 0.5, 0.75 and 0.95 on
the same synthetic single-curve input. -/
theorem C3_witness :
    (ModelEvaluator.evaluate_auc (fun _ _ => 1 / 2) ⟨[[0, 1]], [[0, 1]], []⟩
        PyState.empty).sectionDict "auc"
      = some { guidelines :=
                 [.text ("Area under curve is low for "
                    ++ curveClassName (curveLabel [] 0)),
                   .plot (.rocPerClass [0, 1] [0, 1] [curveLabel [] 0]),
                   .text guideLinkText],
               title := "auc", include_in_report := true, is_ok := false }
    ∧ (ModelEvaluator.evaluate_auc (fun _ _ => 3 / 4) ⟨[[0, 1]], [[0, 1]], []⟩
        PyState.empty).sectionDict "auc"
      = some { guidelines := [], title := "auc",
               include_in_report := false, is_ok := true }
    ∧ (ModelEvaluator.evaluate_auc (fun _ _ => 19 / 20) ⟨[[0, 1]], [[0, 1]], []⟩
        PyState.empty).sectionDict "auc"
      = some { guidelines := [], title := "auc",
               include_in_report := false, is_ok := true } :=
  ⟨(C3_evaluate_auc_single_curve_banding (fun _ _ => 1 / 2) [0, 1] [0, 1] []
      PyState.empty).1 rfl,
    (C3_evaluate_auc_single_curve_banding (fun _ _ => 3 / 4) [0, 1] [0, 1] []
      PyState.empty).2.1 rfl,
    (C3_evaluate_auc_single_curve_banding (fun _ _ => 19 / 20) [0, 1] [0, 1] []
      PyState.empty).2.2 rfl⟩

theorem length_aucStep (aucFn : List ℚ → List ℚ → ℚ) (roc : ROCResult)
    (s : ReportSection) (acc : PyState) (i : Nat) :
    (aucStep aucFn roc s acc i).cells.length = acc.cells.length := by
  simp only [aucStep]
  split
  · simp [length_append_guideline]
  · split <;> simp [length_set_include, length_set_is_ok]

theorem length_foldl_aucStep (aucFn : List ℚ → List ℚ → ℚ) (roc : ROCResult)
    (s : ReportSection) (l : List Nat) (acc : PyState) :
    ((l.foldl (aucStep aucFn roc s) acc).cells.length = acc.cells.length) := by
  induction l generalizing acc with
  | nil => rfl
  | cons i l ih => rw [List.foldl_cons, ih, length_aucStep]

theorem aucStep_flags_notlow (aucFn : List ℚ → List ℚ → ℚ) (roc : ROCResult)
    (s : ReportSection) (acc : PyState) (i : Nat)
    (h : auc_threshold_low_range.in_range
      (aucFn (roc.fpr.getD i []) (roc.tpr.getD i [])) = false)
    (ha : s.addr < acc.cells.length) :
    (aucStep aucFn roc s acc i).deref s.addr
      = { acc.deref s.addr with is_ok := true,
                                include_in_report := false } := by
  simp only [aucStep, h, Bool.false_eq_true, if_false, ite_self]
  rw [deref_set_include_self _ _ _ (by rw [length_set_is_ok]; exact ha),
    deref_set_is_ok_self _ _ _ ha]

/-- C10: over multiple curves the auc section flags are last-writer-wins —
the low branch never writes them while both other branches set
is_ok = true and include_in_report = false, so whenever the AUC of the final
curve is outside the low band the stored section ends ok and excluded, even
if an earlier curve was low (its guidelines stay in the sequence but do
not affect the flags). -/
theorem C10_evaluate_auc_last_writer_wins (aucFn : List ℚ → List ℚ → ℚ)
    (roc : ROCResult) (st : PyState) (n : Nat)
    (hn : roc.fpr.length = n + 1)
    (hlast : auc_threshold_low_range.in_range
      (aucFn (roc.fpr.getD n []) (roc.tpr.getD n [])) = false) :
    ∃ d, (ModelEvaluator.evaluate_auc aucFn roc st).sectionDict "auc" = some d
      ∧ d.is_ok = true ∧ d.include_in_report = false := by
  have ha : (ReportSection.init st "auc" true).1.addr
      < ((List.range n).foldl
          (aucStep aucFn roc (ReportSection.init st "auc" true).1)
          (ReportSection.init st "auc" true).2).cells.length := by
    rw [length_foldl_aucStep]
    exact addr_init_lt st "auc" true
  simp only [ModelEvaluator.evaluate_auc, hn, List.range_succ,
    List.foldl_append, List.foldl_cons, List.foldl_nil]
  rw [sectionDict_addSection_of_key (ReportSection.init st "auc" true).1 _
      "auc" rfl,
    aucStep_flags_notlow aucFn roc _ _ n hlast ha]
  exact ⟨_, rfl, rfl, rfl⟩

/-- C10 witness: two curves — the first scores a low AUC of 0.5, the last
scores 1 — and the section still ends ok and excluded. -/
theorem C10_witness :
    ∃ d, (ModelEvaluator.evaluate_auc
        (fun f _ => if f.length = 1 then 1 / 2 else 1)
        ⟨[[0], [0, 1]], [[0], [0, 1]], []⟩ PyState.empty).sectionDict "auc"
        = some d
      ∧ d.is_ok = true ∧ d.include_in_report = false :=
  C10_evaluate_auc_last_writer_wins
    (fun f _ => if f.length = 1 then 1 / 2 else 1)
    ⟨[[0], [0, 1]], [[0], [0, 1]], []⟩ PyState.empty 1 rfl
    (by simp [Range.in_range, auc_threshold_low_range]; norm_num)
